import Mathlib

/-!
Verification development for the command builder and context assembly layer
(`cli/azd/pkg/commands/builder.go`).

The Go source is shallowly embedded:

* Go `error` values become the inductive `GoError` (a collaborator error, or a
  `fmt.Errorf("...: %w", err)` wrap of an inner error).
* `context.Context` becomes `Ctx`, a list of typed registrations; `WithX`
  registrations cons an entry, so the most recent registration for a kind is
  the first matching entry.
* Writers and I/O streams become the inductive `GoStream`; wrapping a stream
  with `colorable.NewNonColorable` or replacing it with
  `colorable.NewColorableStdout()` yields values distinct from `os.Stdout`,
  mirroring Go interface inequality of the wrapper values.
* Results of external collaborators (`azdcontext.NewAzdContext`,
  `azidentity.NewAzureCLICredential`, `output.GetCommandFormatter`,
  `os.Getenv("NO_COLOR")`, `isatty.IsTerminal`) are inputs, collected in a
  `World` record; `createRootContext` is a pure function of the world.
* `panic` becomes an explicit `panicked` outcome, distinct from an error
  return.
* Telemetry is observed as a trace of span operations
  (`spanStart`/`setStatus`/`spanEnd`) emitted by the run.
-/

namespace AzdBuilder

/-- A Go `error` value: either a collaborator-produced error with a message, or
a `fmt.Errorf("msg: %w", inner)` wrap of an inner error. Equality is value
identity. -/
inductive GoError where
  | base (msg : String)
  | wrapped (msg : String) (inner : GoError)
deriving DecidableEq, Repr

/-- An I/O stream / writer value. `stdout`, `stdin`, `stderr` are the process
standard streams; `custom` is any other stream a caller may install on the
command; `nonColorable` is the value returned by
`colorable.NewNonColorable(base)` and `colorableStdout` the value returned by
`colorable.NewColorableStdout()` — both are distinct from `os.Stdout`, as in Go
where the wrapper has a different dynamic type than the `*os.File`. -/
inductive GoStream where
  | stdout
  | stdin
  | stderr
  | custom (id : Nat)
  | nonColorable (base : GoStream)
  | colorableStdout
deriving DecidableEq, Repr

/-- An output formatter instance (`output.Formatter`); opaque to the builder. -/
structure Formatter where
  id : Nat
deriving DecidableEq, Repr

/-- `azdcontext.AzdContext`; opaque to the builder beyond being threaded
through. -/
structure AzdContext where
  projectDirectory : String
deriving DecidableEq, Repr

/-- The fields of `internal.GlobalCommandOptions` read by `createRootContext`. -/
structure GlobalCommandOptions where
  enableDebugLogging : Bool
  enableTelemetry : Bool
  noPrompt : Bool
deriving DecidableEq, Repr

/-- The command runner built by `exec.NewCommandRunner(stdin, stdout, stderr)`:
it is bound to the invocation's three streams. -/
structure CommandRunner where
  stdin : GoStream
  stdout : GoStream
  stderr : GoStream
deriving DecidableEq, Repr

/-- `azcli.NewAzCliArgs`: debug/telemetry toggles copied from root options plus
the command runner. -/
structure AzCliArgs where
  enableDebug : Bool
  enableTelemetry : Bool
  commandRunner : CommandRunner
deriving DecidableEq, Repr

/-- `input.ConsoleHandles`: the three I/O streams handed to the console. -/
structure ConsoleHandles where
  stdin : GoStream
  stdout : GoStream
  stderr : GoStream
deriving DecidableEq, Repr

/-- The console service. Modelled from the spec: `input.NewConsole` is not
under `src/`; per the spec the console "must accept a 'prompting disabled'
flag, an 'interactive' flag, and the three I/O streams" and is "wired to the
formatter (if any)", so the console is the record of those construction
inputs. -/
structure Console where
  promptEnabled : Bool
  interactive : Bool
  handles : ConsoleHandles
  formatter : Option Formatter
deriving DecidableEq, Repr

/-- Modelled from the spec: `input.NewConsole(allowPrompting, isTerminal,
handles, formatter)` (not under `src/`) constructs the console service,
recording interactivity and the wiring inputs. -/
def NewConsole (allowPrompting : Bool) (interactive : Bool)
    (handles : ConsoleHandles) (formatter : Option Formatter) : Console :=
  { promptEnabled := allowPrompting
    interactive := interactive
    handles := handles
    formatter := formatter }

/-- One typed registration in the execution context. Each constructor is one
`WithX(ctx, value)` registration kind used by `createRootContext` or the
telemetry wrapper. -/
inductive CtxEntry where
  | azdContext (a : AzdContext)
  | commandOptions (o : GlobalCommandOptions)
  | installedCheckCache
  | commandRunner (r : CommandRunner)
  | credentials
  | azCli (args : AzCliArgs)
  | formatter (f : Formatter)
  | writer (w : GoStream)
  | console (c : Console)
  | span (name : String)
deriving DecidableEq, Repr

/-- The execution context: an append-only overlay of typed registrations.
Registering conses, so the most recent registration of a kind is the first
matching entry (child scopes shadow parents). -/
def Ctx := List CtxEntry
deriving DecidableEq, Repr

instance : Membership CtxEntry Ctx := inferInstanceAs (Membership CtxEntry (List CtxEntry))

/-- Register one entry (the generic `WithX(ctx, value)` shape). -/
def Ctx.with (ctx : Ctx) (e : CtxEntry) : Ctx := e :: ctx

/-- Look up the writer registered in the context (`output.WithWriter`
retrieval): the most recently registered writer. -/
def lookupWriter : Ctx → Option GoStream
  | [] => none
  | CtxEntry.writer w :: _ => some w
  | _ :: rest => lookupWriter rest

/-- Look up the console registered in the context (`input.WithConsole`
retrieval): the most recently registered console. -/
def lookupConsole : Ctx → Option Console
  | [] => none
  | CtxEntry.console c :: _ => some c
  | _ :: rest => lookupConsole rest

/-- The cobra command as seen at invocation time: its declared `Use` line, the
`Name()`s of its ancestors from the root down, and its resolved I/O streams
(`InOrStdin`/`OutOrStdout`/`ErrOrStderr`, which are the process standard
streams unless a caller installed others). -/
structure Command where
  use : String
  parentNames : List String
  inStream : GoStream
  outStream : GoStream
  errStream : GoStream
deriving DecidableEq, Repr

/-- cobra's `Command.Name()`: the first word of the declared `Use` line. -/
def commandName (use : String) : String := (use.splitOn " ").headD ""

/-- cobra's `Command.CommandPath()`: per the source comment, "constructed using
the Use member on each command up to the root" — the ancestor names and this
command's name joined by spaces. It does not contain user input. -/
def Command.commandPath (cmd : Command) : String :=
  String.intercalate " " (cmd.parentNames ++ [commandName cmd.use])

/-- Modelled from the spec: `events.GetCommandEventName` (not under `src/`)
derives the span event name deterministically from the command path alone
("a human-readable event name derived deterministically from the full command
invocation path"); modelled as the path itself. -/
def GetCommandEventName (commandPath : String) : String := commandPath

/-- The results of the external collaborators consulted during one invocation:
`azdcontext.NewAzdContext()`, `azidentity.NewAzureCLICredential(nil)` (success
or failure), `output.GetCommandFormatter(cmd)` (a formatter, no formatter, or a
user-input error), the `NO_COLOR` environment variable (`none` = unset), and
`isatty.IsTerminal` on the process stdin/stdout descriptors. -/
structure World where
  newAzdContext : Except GoError AzdContext
  newAzureCLICredentialOk : Bool
  getCommandFormatter : Except GoError (Option Formatter)
  noColorEnv : Option String
  stdinIsTerminal : Bool
  stdoutIsTerminal : Bool

/-- Go's `os.Getenv`: returns the empty string when the variable is unset. -/
def getenv (v : Option String) : String := v.getD ""

/-- The writer-selection logic of `createRootContext`: start from
`cmd.OutOrStdout()`; wrap with `colorable.NewNonColorable` when
`os.Getenv("NO_COLOR")` is non-empty; then, if the resulting writer is still
`os.Stdout`, replace it with `colorable.NewColorableStdout()`. -/
def selectedWriter (w : World) (cmd : Command) : GoStream :=
  let writer := cmd.outStream
  let writer :=
    if getenv w.noColorEnv ≠ "" then GoStream.nonColorable writer else writer
  if writer = GoStream.stdout then GoStream.colorableStdout else writer

/-- The `isTerminal` computation of `createRootContext`:
`cmd.OutOrStdout() == os.Stdout && cmd.InOrStdin() == os.Stdin &&
isatty.IsTerminal(os.Stdin.Fd()) && isatty.IsTerminal(os.Stdout.Fd())`. -/
def isTerminalCheck (w : World) (cmd : Command) : Bool :=
  decide (cmd.outStream = GoStream.stdout) &&
    decide (cmd.inStream = GoStream.stdin) &&
    w.stdinIsTerminal && w.stdoutIsTerminal

/-- Result of `createRootContext`: Go returns `(ctx, azdCtx, err)` with the
convention that exactly one of `azdCtx`/`err` is nil, or the function panics
(credential construction failure). -/
inductive CreateRootContextResult where
  | panicked (msg : String)
  | failed (ctx : Ctx) (err : GoError)
  | ok (ctx : Ctx) (azdCtx : AzdContext)
deriving DecidableEq, Repr

/-- `createRootContext` from `builder.go`: assembles the execution context,
registering the azd context, root options, installed-check cache, command
runner, credentials, az CLI, optional formatter, writer and console, in source
order. Collaborator results come from `w`. -/
def createRootContext (w : World) (ctx : Ctx) (cmd : Command)
    (rootOptions : GlobalCommandOptions) : CreateRootContextResult :=
  match w.newAzdContext with
  | Except.error e => CreateRootContextResult.failed ctx (GoError.wrapped "creating context" e)
  | Except.ok azdCtx =>
    let ctx := ctx.with (CtxEntry.azdContext azdCtx)
    let ctx := ctx.with (CtxEntry.commandOptions rootOptions)
    let ctx := ctx.with CtxEntry.installedCheckCache
    let runner : CommandRunner :=
      { stdin := cmd.inStream, stdout := cmd.outStream, stderr := cmd.errStream }
    let ctx := ctx.with (CtxEntry.commandRunner runner)
    let azCliArgs : AzCliArgs :=
      { enableDebug := rootOptions.enableDebugLogging
        enableTelemetry := rootOptions.enableTelemetry
        commandRunner := runner }
    if !w.newAzureCLICredentialOk then
      CreateRootContextResult.panicked "failed creating azure cli credential"
    else
      let ctx := ctx.with CtxEntry.credentials
      let ctx := ctx.with (CtxEntry.azCli azCliArgs)
      match w.getCommandFormatter with
      | Except.error e => CreateRootContextResult.failed ctx e
      | Except.ok formatter =>
        let ctx := match formatter with
          | some f => ctx.with (CtxEntry.formatter f)
          | none => ctx
        let ctx := ctx.with (CtxEntry.writer (selectedWriter w cmd))
        let console := NewConsole (!rootOptions.noPrompt) (isTerminalCheck w cmd)
          { stdin := cmd.inStream, stdout := cmd.outStream, stderr := cmd.errStream }
          formatter
        let ctx := ctx.with (CtxEntry.console console)
        CreateRootContextResult.ok ctx azdCtx

/-- One telemetry span operation, as observed by the telemetry backend. -/
inductive TelemetryEvent where
  | spanStart (name : String)
  | setStatus (isError : Bool) (description : String)
  | spanEnd
deriving DecidableEq, Repr

/-- `runCmdWithTelemetry` from `builder.go`: starts a span named from the
command path, runs the wrapped function with the span context, marks the span
status `codes.Error, "UnknownError"` on a non-nil error, and (via `defer`)
always ends the span last. Returns the wrapped function's error unchanged, the
span-operation trace, and (for observation) the context the wrapped function
was invoked with. -/
def runCmdWithTelemetry (ctx : Ctx) (cmd : Command)
    (runCmd : Ctx → Option GoError) :
    Option GoError × List TelemetryEvent × Ctx :=
  let eventName := GetCommandEventName cmd.commandPath
  let spanCtx := ctx.with (CtxEntry.span eventName)
  let err := runCmd spanCtx
  let statusOps : List TelemetryEvent :=
    match err with
    | some _ => [TelemetryEvent.setStatus true "UnknownError"]
    | none => []
  (err, TelemetryEvent.spanStart eventName :: (statusOps ++ [TelemetryEvent.spanEnd]), spanCtx)

/-- The `Action` contract: flag registration (the flag names it declares on
the persistent and local flag sets) and `Run(ctx, cmd, args, azdCtx) → error`. -/
structure Action where
  persistentFlags : List String
  localFlags : List String
  run : Ctx → Command → List String → AzdContext → Option GoError

/-- `BuildOptions` with Go zero values as defaults. -/
structure BuildOptions where
  long : String := ""
  aliases : List String := []
  disableCmdUsageEvent : Bool := false
deriving DecidableEq, Repr

/-- One invocation of `action.Run`, recording the context, command, args and
azd context it was called with. -/
structure ActionCall where
  ctx : Ctx
  cmd : Command
  args : List String
  azdCtx : AzdContext
deriving DecidableEq, Repr

/-- How a `RunE` invocation ends: a normal return (of a possibly-nil error) or
a panic. -/
inductive Outcome where
  | returned (err : Option GoError)
  | panicked (msg : String)
deriving DecidableEq, Repr

/-- The observable result of invoking a built command: its outcome, the
telemetry span operations performed, and the `action.Run` invocations made. -/
structure ExecResult where
  outcome : Outcome
  trace : List TelemetryEvent
  actionCalls : List ActionCall
deriving DecidableEq, Repr

/-- The `RunE` closure installed by `Build`: assemble the root context (any
error aborts and is returned; a panic propagates), then run the action either
directly or through the telemetry wrapper per `DisableCmdUsageEvent`. -/
def buildRunE (action : Action) (rootOptions : GlobalCommandOptions)
    (buildOptions : BuildOptions) (w : World) (goCtx : Ctx) (cmd : Command)
    (args : List String) : ExecResult :=
  match createRootContext w goCtx cmd rootOptions with
  | CreateRootContextResult.panicked msg =>
    { outcome := Outcome.panicked msg, trace := [], actionCalls := [] }
  | CreateRootContextResult.failed _ err =>
    { outcome := Outcome.returned (some err), trace := [], actionCalls := [] }
  | CreateRootContextResult.ok ctx azdCtx =>
    if buildOptions.disableCmdUsageEvent then
      { outcome := Outcome.returned (action.run ctx cmd args azdCtx)
        trace := []
        actionCalls := [{ ctx := ctx, cmd := cmd, args := args, azdCtx := azdCtx }] }
    else
      let result := runCmdWithTelemetry ctx cmd (fun c => action.run c cmd args azdCtx)
      { outcome := Outcome.returned result.1
        trace := result.2.1
        actionCalls := [{ ctx := result.2.2, cmd := cmd, args := args, azdCtx := azdCtx }] }

/-- The command object produced by `Build`: declarative fields plus the
installed `RunE` behaviour. -/
structure BuiltCommand where
  use : String
  short : String
  long : String
  aliases : List String
  persistentFlags : List String
  localFlags : List String
  runE : World → Ctx → Command → List String → ExecResult

/-- The nil check at the top of `Build`: a nil `buildOptions` pointer is
replaced by a zero-valued `BuildOptions`. -/
def resolveBuildOptions : Option BuildOptions → BuildOptions
  | none => {}
  | some o => o

/-- `Build` from `builder.go`: substitutes zero-valued options for a nil
`buildOptions`, fills the cobra command's declarative fields, registers the
`help` flag, delegates flag declaration to the action, and installs the
`RunE` closure. -/
def Build (action : Action) (rootOptions : GlobalCommandOptions)
    (use : String) (short : String) (buildOptions : Option BuildOptions) :
    BuiltCommand :=
  let opts := resolveBuildOptions buildOptions
  { use := use
    short := short
    long := opts.long
    aliases := opts.aliases
    persistentFlags := action.persistentFlags
    localFlags := "help" :: action.localFlags
    runE := buildRunE action rootOptions opts }

/-- The span names appearing in a telemetry trace, in order. -/
def traceSpanNames (t : List TelemetryEvent) : List String :=
  t.filterMap fun e =>
    match e with
    | TelemetryEvent.spanStart n => some n
    | _ => none

/-- The context component of a `createRootContext` result (empty on panic). -/
def CreateRootContextResult.ctxOf : CreateRootContextResult → Ctx
  | CreateRootContextResult.panicked _ => []
  | CreateRootContextResult.failed c _ => c
  | CreateRootContextResult.ok c _ => c

/-- The azd-context component of a `createRootContext` result (a default when
absent). -/
def CreateRootContextResult.azdOf : CreateRootContextResult → AzdContext
  | CreateRootContextResult.ok _ a => a
  | _ => { projectDirectory := "" }

/-! ## Concrete fixtures used by the witnesses -/

/-- Root options fixture. -/
def ro0 : GlobalCommandOptions :=
  { enableDebugLogging := false, enableTelemetry := true, noPrompt := false }

/-- Azd context fixture. -/
def azd0 : AzdContext := { projectDirectory := "/home/user/proj" }

/-- A world where every collaborator succeeds, `NO_COLOR` is unset and both
descriptors are terminals. -/
def w0 : World :=
  { newAzdContext := Except.ok azd0
    newAzureCLICredentialOk := true
    getCommandFormatter := Except.ok none
    noColorEnv := none
    stdinIsTerminal := true
    stdoutIsTerminal := true }

/-- A `deploy` command under a root `azd` command, bound to the process
standard streams. -/
def cmd0 : Command :=
  { use := "deploy"
    parentNames := ["azd"]
    inStream := GoStream.stdin
    outStream := GoStream.stdout
    errStream := GoStream.stderr }

/-- An action error fixture. -/
def err0 : GoError := GoError.base "boom"

/-- An action that always fails with `err0` and declares no flags. -/
def action0 : Action :=
  { persistentFlags := []
    localFlags := []
    run := fun _ _ _ _ => some err0 }

/-! ## Claims -/

/-- C1: for every action and build configuration, an error returned by the
action's `Run` is returned from the built command unchanged (the same
`GoError` value) in both the telemetry-wrapped and unwrapped paths; in the
wrapped path the span status is additionally marked as an error and the span
is still closed (the trace ends with `spanEnd`). -/
theorem action_error_propagated_unchanged
    (action : Action) (ro : GlobalCommandOptions) (use short : String)
    (bo : Option BuildOptions) (w : World) (goCtx : Ctx) (cmd : Command)
    (args : List String) (ctx : Ctx) (azdCtx : AzdContext) (e : GoError)
    (hctx : createRootContext w goCtx cmd ro = CreateRootContextResult.ok ctx azdCtx)
    (hrun : ∀ c, action.run c cmd args azdCtx = some e) :
    ((Build action ro use short bo).runE w goCtx cmd args).outcome
        = Outcome.returned (some e) ∧
      ((resolveBuildOptions bo).disableCmdUsageEvent = false →
        TelemetryEvent.setStatus true "UnknownError"
            ∈ ((Build action ro use short bo).runE w goCtx cmd args).trace ∧
          ((Build action ro use short bo).runE w goCtx cmd args).trace.getLast?
            = some TelemetryEvent.spanEnd) ∧
      ((resolveBuildOptions bo).disableCmdUsageEvent = true →
        ((Build action ro use short bo).runE w goCtx cmd args).trace = []) := by
  simp only [Build, buildRunE, hctx]
  by_cases hdis : (resolveBuildOptions bo).disableCmdUsageEvent
  · simp [hdis, hrun]
  · simp only [Bool.not_eq_true] at hdis
    simp [hdis, runCmdWithTelemetry, hrun]

/-- Witness for C1: a concrete failing action under the telemetry-enabled
default options; its error surfaces unchanged and the span trace records the
error status and the span end. -/
theorem action_error_propagated_unchanged_witness :
    ((Build action0 ro0 "deploy" "Deploys the app" none).runE w0 [] cmd0 ["svc"]).outcome
        = Outcome.returned (some err0) ∧
      ((resolveBuildOptions none).disableCmdUsageEvent = false →
        TelemetryEvent.setStatus true "UnknownError"
            ∈ ((Build action0 ro0 "deploy" "Deploys the app" none).runE w0 [] cmd0 ["svc"]).trace ∧
          ((Build action0 ro0 "deploy" "Deploys the app" none).runE w0 [] cmd0 ["svc"]).trace.getLast?
            = some TelemetryEvent.spanEnd) ∧
      ((resolveBuildOptions none).disableCmdUsageEvent = true →
        ((Build action0 ro0 "deploy" "Deploys the app" none).runE w0 [] cmd0 ["svc"]).trace = []) :=
  action_error_propagated_unchanged action0 ro0 "deploy" "Deploys the app" none w0 [] cmd0
    ["svc"] (createRootContext w0 [] cmd0 ro0).ctxOf (createRootContext w0 [] cmd0 ro0).azdOf
    err0 rfl (fun _ => rfl)

/-- C2: if `createRootContext` returns a non-nil error, the action's `Run` is
never invoked and that assembly error is returned as the command's result; in
particular an unrecognized output-format selector (a `GetCommandFormatter`
error) is returned to the caller as a normal error, not a panic, when the
earlier assembly steps succeed. -/
theorem assembly_error_aborts_before_action
    (action : Action) (ro : GlobalCommandOptions) (use short : String)
    (bo : Option BuildOptions) (w : World) (goCtx : Ctx) (cmd : Command)
    (args : List String) :
    (∀ c e, createRootContext w goCtx cmd ro = CreateRootContextResult.failed c e →
      (Build action ro use short bo).runE w goCtx cmd args
        = { outcome := Outcome.returned (some e), trace := [], actionCalls := [] }) ∧
    (∀ a e, w.newAzdContext = Except.ok a → w.newAzureCLICredentialOk = true →
      w.getCommandFormatter = Except.error e →
      (Build action ro use short bo).runE w goCtx cmd args
        = { outcome := Outcome.returned (some e), trace := [], actionCalls := [] }) := by
  constructor
  · intro c e h
    simp [Build, buildRunE, h]
  · intro a e ha hcred hfmt
    simp [Build, buildRunE, createRootContext, ha, hcred, hfmt]

/-- Witness for C2: with a world whose formatter resolver rejects the selector,
the built command returns exactly that error, runs no action and emits no
telemetry. -/
theorem assembly_error_aborts_before_action_witness :
    (Build action0 ro0 "deploy" "Deploys the app" none).runE
        { w0 with getCommandFormatter := Except.error (GoError.base "unsupported format") }
        [] cmd0 ["svc"]
      = { outcome := Outcome.returned (some (GoError.base "unsupported format"))
          trace := []
          actionCalls := [] } :=
  (assembly_error_aborts_before_action action0 ro0 "deploy" "Deploys the app" none
      { w0 with getCommandFormatter := Except.error (GoError.base "unsupported format") }
      [] cmd0 ["svc"]).2
    azd0 (GoError.base "unsupported format") rfl rfl rfl

/-- C3: a credential-construction failure makes `createRootContext` panic
(after the azd context is created), while with credential construction
succeeding `createRootContext` never panics: an azd-context failure and a
formatter failure are each returned as ordinary errors. -/
theorem credential_failure_panics_others_return
    (w : World) (goCtx : Ctx) (cmd : Command) (ro : GlobalCommandOptions) :
    (∀ a, w.newAzdContext = Except.ok a → w.newAzureCLICredentialOk = false →
      createRootContext w goCtx cmd ro
        = CreateRootContextResult.panicked "failed creating azure cli credential") ∧
    (w.newAzureCLICredentialOk = true →
      ∀ msg, createRootContext w goCtx cmd ro ≠ CreateRootContextResult.panicked msg) ∧
    (∀ e, w.newAzdContext = Except.error e →
      ∃ c, createRootContext w goCtx cmd ro
        = CreateRootContextResult.failed c (GoError.wrapped "creating context" e)) ∧
    (∀ a e, w.newAzdContext = Except.ok a → w.newAzureCLICredentialOk = true →
      w.getCommandFormatter = Except.error e →
      ∃ c, createRootContext w goCtx cmd ro = CreateRootContextResult.failed c e) := by
  refine ⟨?_, ?_, ?_, ?_⟩
  · intro a ha hcred
    simp [createRootContext, ha, hcred]
  · intro hcred msg
    unfold createRootContext
    cases h : w.newAzdContext with
    | error e => simp
    | ok a =>
      simp only [hcred]
      cases hf : w.getCommandFormatter with
      | error e => simp
      | ok f => simp
  · intro e he
    exact ⟨goCtx, by simp [createRootContext, he]⟩
  · intro a e ha hcred hfmt
    simp [createRootContext, ha, hcred, hfmt]

/-- Witness for C3: a concrete world where credential construction fails
panics with the fixed message. -/
theorem credential_failure_panics_others_return_witness :
    createRootContext { w0 with newAzureCLICredentialOk := false } [] cmd0 ro0
      = CreateRootContextResult.panicked "failed creating azure cli credential" :=
  (credential_failure_panics_others_return
      { w0 with newAzureCLICredentialOk := false } [] cmd0 ro0).1 azd0 rfl rfl

/-- The telemetry wrapper emits exactly one span start, named from the command
path, whatever the wrapped function returns. -/
theorem traceSpanNames_runCmdWithTelemetry (ctx : Ctx) (cmd : Command)
    (runCmd : Ctx → Option GoError) :
    traceSpanNames (runCmdWithTelemetry ctx cmd runCmd).2.1
      = [GetCommandEventName cmd.commandPath] := by
  unfold runCmdWithTelemetry traceSpanNames
  cases h : runCmd (ctx.with (CtxEntry.span (GetCommandEventName cmd.commandPath))) <;>
    simp [h]

/-- C4: the span event name is a function of only the chain of declared `Use`
names. Two invocations of the same built command whose `Use` line and ancestor
names agree — with arbitrary differing worlds, arguments, streams and contexts
— emit exactly one span name each, and the names are identical. -/
theorem span_name_depends_only_on_use_chain
    (action : Action) (ro : GlobalCommandOptions) (use short : String)
    (bo : Option BuildOptions) (w1 w2 : World) (g1 g2 : Ctx)
    (cmd1 cmd2 : Command) (args1 args2 : List String)
    (c1 c2 : Ctx) (a1 a2 : AzdContext)
    (huse : cmd1.use = cmd2.use) (hpar : cmd1.parentNames = cmd2.parentNames)
    (h1 : createRootContext w1 g1 cmd1 ro = CreateRootContextResult.ok c1 a1)
    (h2 : createRootContext w2 g2 cmd2 ro = CreateRootContextResult.ok c2 a2)
    (hdis : (resolveBuildOptions bo).disableCmdUsageEvent = false) :
    traceSpanNames ((Build action ro use short bo).runE w1 g1 cmd1 args1).trace
        = [GetCommandEventName cmd1.commandPath] ∧
      traceSpanNames ((Build action ro use short bo).runE w2 g2 cmd2 args2).trace
        = traceSpanNames ((Build action ro use short bo).runE w1 g1 cmd1 args1).trace := by
  have hpath : cmd1.commandPath = cmd2.commandPath := by
    simp [Command.commandPath, huse, hpar]
  simp only [Build, buildRunE, h1, h2, hdis, Bool.false_eq_true, if_false]
  exact ⟨traceSpanNames_runCmdWithTelemetry _ _ _, by
    rw [traceSpanNames_runCmdWithTelemetry, traceSpanNames_runCmdWithTelemetry, hpath]⟩

/-- Witness for C4: the same `azd deploy` command invoked with different
positional arguments, different streams and a different environment emits the
same single span name both times. -/
theorem span_name_depends_only_on_use_chain_witness :
    traceSpanNames ((Build action0 ro0 "deploy" "Deploys the app" none).runE w0 [] cmd0
          ["svc-a"]).trace
        = [GetCommandEventName cmd0.commandPath] ∧
      traceSpanNames ((Build action0 ro0 "deploy" "Deploys the app" none).runE
            { w0 with noColorEnv := some "1", stdinIsTerminal := false }
            [] { cmd0 with inStream := GoStream.custom 5, outStream := GoStream.custom 7 }
            ["svc-b", "--force"]).trace
        = traceSpanNames ((Build action0 ro0 "deploy" "Deploys the app" none).runE w0 [] cmd0
            ["svc-a"]).trace :=
  span_name_depends_only_on_use_chain action0 ro0 "deploy" "Deploys the app" none w0
    { w0 with noColorEnv := some "1", stdinIsTerminal := false } [] [] cmd0
    { cmd0 with inStream := GoStream.custom 5, outStream := GoStream.custom 7 }
    ["svc-a"] ["svc-b", "--force"]
    (createRootContext w0 [] cmd0 ro0).ctxOf
    (createRootContext { w0 with noColorEnv := some "1", stdinIsTerminal := false } []
        { cmd0 with inStream := GoStream.custom 5, outStream := GoStream.custom 7 } ro0).ctxOf
    (createRootContext w0 [] cmd0 ro0).azdOf
    (createRootContext { w0 with noColorEnv := some "1", stdinIsTerminal := false } []
        { cmd0 with inStream := GoStream.custom 5, outStream := GoStream.custom 7 } ro0).azdOf
    rfl rfl rfl rfl rfl

/-- C5: with `DisableCmdUsageEvent` set, an invocation whose context assembly
succeeds performs no telemetry span operation at all, and the action is
invoked exactly once, directly with the assembled context. -/
theorem disable_usage_event_no_span
    (action : Action) (ro : GlobalCommandOptions) (use short : String)
    (bo : Option BuildOptions) (w : World) (goCtx : Ctx) (cmd : Command)
    (args : List String) (ctx : Ctx) (azdCtx : AzdContext)
    (hctx : createRootContext w goCtx cmd ro = CreateRootContextResult.ok ctx azdCtx)
    (hdis : (resolveBuildOptions bo).disableCmdUsageEvent = true) :
    ((Build action ro use short bo).runE w goCtx cmd args).trace = [] ∧
      ((Build action ro use short bo).runE w goCtx cmd args).actionCalls
        = [{ ctx := ctx, cmd := cmd, args := args, azdCtx := azdCtx }] ∧
      ((Build action ro use short bo).runE w goCtx cmd args).outcome
        = Outcome.returned (action.run ctx cmd args azdCtx) := by
  simp [Build, buildRunE, hctx, hdis]

/-- Witness for C5: a command built with `DisableCmdUsageEvent := true` emits
an empty telemetry trace and calls the action once with the assembled
context. -/
theorem disable_usage_event_no_span_witness :
    ((Build action0 ro0 "deploy" "Deploys the app"
          (some { disableCmdUsageEvent := true })).runE w0 [] cmd0 ["svc"]).trace = [] ∧
      ((Build action0 ro0 "deploy" "Deploys the app"
            (some { disableCmdUsageEvent := true })).runE w0 [] cmd0 ["svc"]).actionCalls
        = [{ ctx := (createRootContext w0 [] cmd0 ro0).ctxOf, cmd := cmd0, args := ["svc"],
             azdCtx := (createRootContext w0 [] cmd0 ro0).azdOf }] ∧
      ((Build action0 ro0 "deploy" "Deploys the app"
            (some { disableCmdUsageEvent := true })).runE w0 [] cmd0 ["svc"]).outcome
        = Outcome.returned (action0.run (createRootContext w0 [] cmd0 ro0).ctxOf cmd0 ["svc"]
            (createRootContext w0 [] cmd0 ro0).azdOf) :=
  disable_usage_event_no_span action0 ro0 "deploy" "Deploys the app"
    (some { disableCmdUsageEvent := true }) w0 [] cmd0 ["svc"]
    (createRootContext w0 [] cmd0 ro0).ctxOf (createRootContext w0 [] cmd0 ro0).azdOf rfl rfl

/-- Inversion for a successful assembly: the registered writer is the one
picked by the writer-selection logic, and the registered console was
constructed from the prompting option, the `isTerminal` check, the command's
streams and the resolved formatter. -/
theorem createRootContext_ok_lookups
    (w : World) (goCtx : Ctx) (cmd : Command) (ro : GlobalCommandOptions)
    (ctx : Ctx) (azdCtx : AzdContext)
    (hctx : createRootContext w goCtx cmd ro = CreateRootContextResult.ok ctx azdCtx) :
    lookupWriter ctx = some (selectedWriter w cmd) ∧
      ∃ fmt : Option Formatter, w.getCommandFormatter = Except.ok fmt ∧
        lookupConsole ctx
          = some (NewConsole (!ro.noPrompt) (isTerminalCheck w cmd)
              { stdin := cmd.inStream, stdout := cmd.outStream, stderr := cmd.errStream }
              fmt) := by
  revert hctx
  unfold createRootContext
  cases w.newAzdContext with
  | error e => intro h; cases h
  | ok a =>
    cases hcred : w.newAzureCLICredentialOk with
    | false => intro h; cases h
    | true =>
      simp only [Bool.not_true, Bool.false_eq_true, if_false, ite_false]
      cases hf : w.getCommandFormatter with
      | error e => intro h; cases h
      | ok fmt =>
        cases fmt with
        | none =>
          intro h
          cases h
          exact ⟨rfl, none, rfl, rfl⟩
        | some f =>
          intro h
          cases h
          exact ⟨rfl, some f, rfl, rfl⟩

/-- C6: when `NO_COLOR` is set to a non-empty value, the writer registered in
the context is the color-stripping wrap of the command's output stream, and
the ANSI-to-native-color wrap is never the registered writer — even when the
output stream is the real process stdout. -/
theorem no_color_takes_precedence
    (w : World) (goCtx : Ctx) (cmd : Command) (ro : GlobalCommandOptions)
    (ctx : Ctx) (azdCtx : AzdContext) (v : String)
    (henv : w.noColorEnv = some v) (hv : v ≠ "")
    (hctx : createRootContext w goCtx cmd ro = CreateRootContextResult.ok ctx azdCtx) :
    lookupWriter ctx = some (GoStream.nonColorable cmd.outStream) ∧
      lookupWriter ctx ≠ some GoStream.colorableStdout := by
  have hw := (createRootContext_ok_lookups w goCtx cmd ro ctx azdCtx hctx).1
  have hsel : selectedWriter w cmd = GoStream.nonColorable cmd.outStream := by
    simp [selectedWriter, getenv, henv, hv]
  rw [hw, hsel]
  exact ⟨rfl, by simp⟩

/-- Witness for C6: `NO_COLOR=1` with output bound to the real stdout yields
the stripping wrap, not the native-color wrap. -/
theorem no_color_takes_precedence_witness :
    lookupWriter (createRootContext { w0 with noColorEnv := some "1" } [] cmd0 ro0).ctxOf
        = some (GoStream.nonColorable cmd0.outStream) ∧
      lookupWriter (createRootContext { w0 with noColorEnv := some "1" } [] cmd0 ro0).ctxOf
        ≠ some GoStream.colorableStdout :=
  no_color_takes_precedence { w0 with noColorEnv := some "1" } [] cmd0 ro0
    (createRootContext { w0 with noColorEnv := some "1" } [] cmd0 ro0).ctxOf
    (createRootContext { w0 with noColorEnv := some "1" } [] cmd0 ro0).azdOf
    "1" rfl (by decide) rfl

/-- C7: when `NO_COLOR` is unset, the registered writer is the
ANSI-to-native-color wrap if the command's output stream is the real process
stdout, and the stream itself, unwrapped, otherwise. -/
theorem no_color_unset_writer_selection
    (w : World) (goCtx : Ctx) (cmd : Command) (ro : GlobalCommandOptions)
    (ctx : Ctx) (azdCtx : AzdContext)
    (henv : w.noColorEnv = none)
    (hctx : createRootContext w goCtx cmd ro = CreateRootContextResult.ok ctx azdCtx) :
    (cmd.outStream = GoStream.stdout →
        lookupWriter ctx = some GoStream.colorableStdout) ∧
      (cmd.outStream ≠ GoStream.stdout → lookupWriter ctx = some cmd.outStream) := by
  have hw := (createRootContext_ok_lookups w goCtx cmd ro ctx azdCtx hctx).1
  constructor
  · intro hout
    rw [hw]
    simp [selectedWriter, getenv, henv, hout]
  · intro hout
    rw [hw]
    simp [selectedWriter, getenv, henv, hout]

/-- Witness for C7: with `NO_COLOR` unset, stdout gets the native-color wrap
and a custom stream is registered unwrapped. -/
theorem no_color_unset_writer_selection_witness :
    ((cmd0.outStream = GoStream.stdout →
        lookupWriter (createRootContext w0 [] cmd0 ro0).ctxOf
          = some GoStream.colorableStdout) ∧
      (cmd0.outStream ≠ GoStream.stdout →
        lookupWriter (createRootContext w0 [] cmd0 ro0).ctxOf = some cmd0.outStream)) ∧
    (({ cmd0 with outStream := GoStream.custom 3 } : Command).outStream = GoStream.stdout →
        lookupWriter
            (createRootContext w0 [] { cmd0 with outStream := GoStream.custom 3 } ro0).ctxOf
          = some GoStream.colorableStdout) ∧
      (({ cmd0 with outStream := GoStream.custom 3 } : Command).outStream ≠ GoStream.stdout →
        lookupWriter
            (createRootContext w0 [] { cmd0 with outStream := GoStream.custom 3 } ro0).ctxOf
          = some ({ cmd0 with outStream := GoStream.custom 3 } : Command).outStream) :=
  ⟨no_color_unset_writer_selection w0 [] cmd0 ro0
      (createRootContext w0 [] cmd0 ro0).ctxOf (createRootContext w0 [] cmd0 ro0).azdOf
      rfl rfl,
    no_color_unset_writer_selection w0 [] { cmd0 with outStream := GoStream.custom 3 } ro0
      (createRootContext w0 [] { cmd0 with outStream := GoStream.custom 3 } ro0).ctxOf
      (createRootContext w0 [] { cmd0 with outStream := GoStream.custom 3 } ro0).azdOf
      rfl rfl⟩

/-- Counterexample for C8: `NO_COLOR` present but set to the empty string does
not select the color-stripping wrap — on the stdout path the
ANSI-to-native-color wrap is chosen instead, because the code tests
`os.Getenv("NO_COLOR") != ""` and `Getenv` cannot distinguish an empty value
from an unset variable. -/
theorem no_color_empty_value_counterexample :
    ({ w0 with noColorEnv := some "" } : World).noColorEnv.isSome = true ∧
      lookupWriter (createRootContext { w0 with noColorEnv := some "" } [] cmd0 ro0).ctxOf
        = some GoStream.colorableStdout ∧
      lookupWriter (createRootContext { w0 with noColorEnv := some "" } [] cmd0 ro0).ctxOf
        ≠ some (GoStream.nonColorable cmd0.outStream) := by
  refine ⟨rfl, rfl, ?_⟩
  decide

/-- C8 (amended): setting `NO_COLOR` to any non-empty value disables ANSI
color (the color-stripping wrap is selected); setting it to the empty string
is indistinguishable from leaving it unset and selects whatever the unset
policy selects. -/
theorem no_color_nonempty_disables_color
    (w : World) (goCtx : Ctx) (cmd : Command) (ro : GlobalCommandOptions)
    (ctx : Ctx) (azdCtx : AzdContext) (v : String)
    (henv : w.noColorEnv = some v)
    (hctx : createRootContext w goCtx cmd ro = CreateRootContextResult.ok ctx azdCtx) :
    (v ≠ "" → lookupWriter ctx = some (GoStream.nonColorable cmd.outStream)) ∧
      (v = "" →
        lookupWriter ctx = some (selectedWriter { w with noColorEnv := none } cmd)) := by
  have hw := (createRootContext_ok_lookups w goCtx cmd ro ctx azdCtx hctx).1
  constructor
  · intro hv
    rw [hw]
    simp [selectedWriter, getenv, henv, hv]
  · intro hv
    rw [hw]
    simp [selectedWriter, getenv, henv, hv]

/-- Witness for the amended C8: `NO_COLOR=true` on a non-stdout stream still
selects the stripping wrap of that stream. -/
theorem no_color_nonempty_disables_color_witness :
    (("true" : String) ≠ "" →
        lookupWriter
            (createRootContext
              { w0 with noColorEnv := some "true" } []
              { cmd0 with outStream := GoStream.custom 3 } ro0).ctxOf
          = some (GoStream.nonColorable
              ({ cmd0 with outStream := GoStream.custom 3 } : Command).outStream)) ∧
      (("true" : String) = "" →
        lookupWriter
            (createRootContext
              { w0 with noColorEnv := some "true" } []
              { cmd0 with outStream := GoStream.custom 3 } ro0).ctxOf
          = some (selectedWriter
              { { w0 with noColorEnv := some "true" } with noColorEnv := none }
              { cmd0 with outStream := GoStream.custom 3 })) :=
  no_color_nonempty_disables_color { w0 with noColorEnv := some "true" } []
    { cmd0 with outStream := GoStream.custom 3 } ro0
    (createRootContext { w0 with noColorEnv := some "true" } []
        { cmd0 with outStream := GoStream.custom 3 } ro0).ctxOf
    (createRootContext { w0 with noColorEnv := some "true" } []
        { cmd0 with outStream := GoStream.custom 3 } ro0).azdOf
    "true" rfl rfl

/-- C9: a console is always registered by a successful assembly, and it is
interactive exactly when the command's input stream is the process stdin, its
output stream is the process stdout, and both underlying descriptors are
terminals. -/
theorem console_interactive_iff
    (w : World) (goCtx : Ctx) (cmd : Command) (ro : GlobalCommandOptions)
    (ctx : Ctx) (azdCtx : AzdContext)
    (hctx : createRootContext w goCtx cmd ro = CreateRootContextResult.ok ctx azdCtx) :
    (lookupConsole ctx).isSome = true ∧
      ∀ c, lookupConsole ctx = some c →
        (c.interactive = true ↔
          cmd.inStream = GoStream.stdin ∧ cmd.outStream = GoStream.stdout ∧
            w.stdinIsTerminal = true ∧ w.stdoutIsTerminal = true) := by
  obtain ⟨fmt, _, hc⟩ := (createRootContext_ok_lookups w goCtx cmd ro ctx azdCtx hctx).2
  rw [hc]
  refine ⟨rfl, ?_⟩
  intro c h
  cases h
  simp only [NewConsole, isTerminalCheck, Bool.and_eq_true, decide_eq_true_eq]
  constructor
  · rintro ⟨⟨⟨hout, hin⟩, hitty⟩, hotty⟩
    exact ⟨hin, hout, hitty, hotty⟩
  · rintro ⟨hin, hout, hitty, hotty⟩
    exact ⟨⟨⟨hout, hin⟩, hitty⟩, hotty⟩

/-- Witness for C9: with both streams bound to the process standard streams
and both descriptors terminals, the registered console is interactive. -/
theorem console_interactive_iff_witness :
    ((lookupConsole (createRootContext w0 [] cmd0 ro0).ctxOf).isSome = true ∧
        ∀ c, lookupConsole (createRootContext w0 [] cmd0 ro0).ctxOf = some c →
          (c.interactive = true ↔
            cmd0.inStream = GoStream.stdin ∧ cmd0.outStream = GoStream.stdout ∧
              w0.stdinIsTerminal = true ∧ w0.stdoutIsTerminal = true)) ∧
      ((lookupConsole
            (createRootContext { w0 with stdinIsTerminal := false } [] cmd0 ro0).ctxOf).isSome
          = true ∧
        ∀ c, lookupConsole
              (createRootContext { w0 with stdinIsTerminal := false } [] cmd0 ro0).ctxOf
            = some c →
          (c.interactive = true ↔
            cmd0.inStream = GoStream.stdin ∧ cmd0.outStream = GoStream.stdout ∧
              ({ w0 with stdinIsTerminal := false } : World).stdinIsTerminal = true ∧
                ({ w0 with stdinIsTerminal := false } : World).stdoutIsTerminal = true)) :=
  ⟨console_interactive_iff w0 [] cmd0 ro0 (createRootContext w0 [] cmd0 ro0).ctxOf
      (createRootContext w0 [] cmd0 ro0).azdOf rfl,
    console_interactive_iff { w0 with stdinIsTerminal := false } [] cmd0 ro0
      (createRootContext { w0 with stdinIsTerminal := false } [] cmd0 ro0).ctxOf
      (createRootContext { w0 with stdinIsTerminal := false } [] cmd0 ro0).azdOf rfl⟩

/-- C10: `Build` with a nil `buildOptions` pointer behaves exactly as with a
zero-valued `BuildOptions`: the two built commands are equal, the `Long` text
is empty, there are no aliases, and an invocation with successful assembly
runs through the telemetry wrapper (its trace opens with the span start). -/
theorem nil_build_options_defaults
    (action : Action) (ro : GlobalCommandOptions) (use short : String) :
    Build action ro use short none = Build action ro use short (some {}) ∧
      (Build action ro use short none).long = "" ∧
      (Build action ro use short none).aliases = [] ∧
      ∀ (w : World) (goCtx : Ctx) (cmd : Command) (args : List String)
          (ctx : Ctx) (azdCtx : AzdContext),
        createRootContext w goCtx cmd ro = CreateRootContextResult.ok ctx azdCtx →
        ((Build action ro use short none).runE w goCtx cmd args).trace.head?
          = some (TelemetryEvent.spanStart (GetCommandEventName cmd.commandPath)) := by
  refine ⟨rfl, rfl, rfl, ?_⟩
  intro w goCtx cmd args ctx azdCtx hctx
  simp [Build, buildRunE, hctx, resolveBuildOptions, runCmdWithTelemetry]

/-- Witness for C10: a concrete build with nil options equals the zero-options
build and emits the telemetry span on a successful invocation. -/
theorem nil_build_options_defaults_witness :
    Build action0 ro0 "deploy" "Deploys the app" none
        = Build action0 ro0 "deploy" "Deploys the app" (some {}) ∧
      (Build action0 ro0 "deploy" "Deploys the app" none).long = "" ∧
      (Build action0 ro0 "deploy" "Deploys the app" none).aliases = [] ∧
      ((Build action0 ro0 "deploy" "Deploys the app" none).runE w0 [] cmd0 ["svc"]).trace.head?
        = some (TelemetryEvent.spanStart (GetCommandEventName cmd0.commandPath)) :=
  ⟨(nil_build_options_defaults action0 ro0 "deploy" "Deploys the app").1,
    (nil_build_options_defaults action0 ro0 "deploy" "Deploys the app").2.1,
    (nil_build_options_defaults action0 ro0 "deploy" "Deploys the app").2.2.1,
    (nil_build_options_defaults action0 ro0 "deploy" "Deploys the app").2.2.2 w0 [] cmd0
      ["svc"] (createRootContext w0 [] cmd0 ro0).ctxOf
      (createRootContext w0 [] cmd0 ro0).azdOf rfl⟩

end AzdBuilder
